import Mathlib
/-!
Verification of the settings store and API client layer of the
zaptec-solis mobile application (src/services/settingsService.ts and
src/services/apiService.ts).

The TypeScript services are shallowly embedded as pure Lean functions.
JavaScript specifics are made explicit:

- optional / possibly-undefined fields become Option values;
- the JavaScript truthiness of the or-operator (empty string, 0, NaN,
  undefined are all falsy) is modelled by jsOrStr / jsOrNat;
- asynchronous storage writes are modelled by passing the outcome of the
  write (success or failure) as an explicit boolean argument, and a
  thrown exception becomes an explicit error value in the result;
- the singleton mutable state of each service becomes an explicit state
  record threaded through the operations.

Machine numbers in this code are small non-negative integers (ports,
timeouts, HTTP status codes), modelled as Nat.
-/
/-- JavaScript expression v or-else d for an optional string v: undefined
and the empty string are falsy, any other string is returned as is. -/
def jsOrStr (v : Option String) (d : String) : String :=
  match v with
  | none => d
  | some s => if s = "" then d else s
/-- JavaScript expression v or-else d for an optional number v: undefined,
NaN and 0 are falsy (NaN is conflated with undefined as none, which is
sound because the code only consumes these values through or-else). -/
def jsOrNat (v : Option Nat) (d : Nat) : Nat :=
  match v with
  | none => d
  | some n => if n = 0 then d else n
/-- JavaScript truthiness of an optional string value. -/
def jsTruthyStr (v : Option String) : Bool :=
  match v with
  | none => false
  | some s => !(s == "")
/-- Numeric value of a decimal digit character. -/
def charVal (c : Char) : Nat := c.toNat - 48
/-- Decimal digit character for a value below ten. -/
def digitChar : Nat → Char
  | 0 => '0'
  | 1 => '1'
  | 2 => '2'
  | 3 => '3'
  | 4 => '4'
  | 5 => '5'
  | 6 => '6'
  | 7 => '7'
  | 8 => '8'
  | _ => '9'
/-- Value of a list of decimal digit characters, most significant first. -/
def parseDigitsVal (l : List Char) : Nat :=
  l.foldl (fun a c => 10 * a + charVal c) 0
/-- Fuel-driven decimal rendering of a natural number (fuel is always
sufficient when it exceeds the number, see renderNatChars). -/
def renderNatAux : Nat → Nat → List Char
  | 0, _ => []
  | fuel + 1, n =>
    if n < 10 then [digitChar n]
    else renderNatAux fuel (n / 10) ++ [digitChar (n % 10)]
/-- Decimal representation of a natural number as a character list; this
is the JavaScript number-to-string conversion for the non-negative
integers appearing in this code. -/
def renderNatChars (n : Nat) : List Char := renderNatAux (n + 1) n
/-- Decimal representation of a natural number as a string. -/
def natToString (n : Nat) : String := ⟨renderNatChars n⟩
/-! ## Character-level list splitting

The TypeScript code splits strings at separator characters (the IPv4
regular expression, the URL parser). These are modelled by explicit
recursive splitters over character lists. -/
/-- Split a character list at the first occurrence of sep: returns the
prefix before it and, when sep occurs, the remainder after it. -/
def splitAtChar (sep : Char) : List Char → List Char × Option (List Char)
  | [] => ([], none)
  | c :: rest =>
    if c = sep then ([], some rest)
    else
      let r := splitAtChar sep rest
      (c :: r.1, r.2)
/-- Split a character list at every occurrence of sep. -/
def splitOnChar (sep : Char) : List Char → List (List Char)
  | [] => [[]]
  | c :: rest =>
    if c = sep then [] :: splitOnChar sep rest
    else
      match splitOnChar sep rest with
      | [] => [[c]]
      | h :: t => (c :: h) :: t
/-! ## Settings service data model

Embedding of src/services/settingsService.ts. The service is a singleton
holding an in-memory AppSettings record and persisting it as a single
JSON record in AsyncStorage. The state record below carries both the
in-memory settings and the durable storage content; storage read/write
failures are passed as explicit boolean arguments. -/
/-- Build-time environment configuration surface (the at-env import plus
the expo-constants extra table, modelled as an association list). An
absent variable is none; JavaScript treats absent and empty-string
values alike through the or-else chains. -/
structure Env where
  API_BASE_URL : Option String := none
  API_TIMEOUT : Option String := none
  API_USE_HTTPS : Option String := none
  SIMULATION_MODE : Option String := none
  API_KEY : Option String := none
  extra : List (String × String) := []
deriving DecidableEq
/-- Lookup in the expo-constants extra table. -/
def lookupExtra (env : Env) (k : String) : Option String :=
  (env.extra.find? (fun p => p.1 == k)).map (fun p => p.2)
/-- The getEnvVar helper of settingsService.ts: envVar or-else the
expo extra entry or-else the fallback. -/
def getEnvVar (env : Env) (envVar : Option String) (extraKey : String)
    (fallback : String) : String :=
  jsOrStr envVar (jsOrStr (lookupExtra env extraKey) fallback)
/-- JavaScript parseInt on the decimal prefix of a string; none models
NaN (no leading digits). -/
def jsParseInt (s : String) : Option Nat :=
  let ds := s.data.takeWhile Char.isDigit
  if ds.isEmpty then none else some (parseDigitsVal ds)
/-- Connection configuration record (ApiConfig in api.types.ts plus the
apiKey field the services attach to it). Optional fields are Option;
the boolean flags are consumed only through truthiness, so undefined
and false coincide and they are modelled as Bool. -/
structure ApiConfig where
  baseUrl : String
  timeout : Option Nat := none
  authToken : Option String := none
  useHttps : Bool := false
  simulationMode : Bool := false
  apiKey : Option String := none
deriving DecidableEq
/-- The getDefaultApiConfig function of settingsService.ts. -/
def getDefaultApiConfig (env : Env) : ApiConfig :=
  let simulationMode :=
    getEnvVar env env.SIMULATION_MODE "SIMULATION_MODE" "false" == "true"
  { baseUrl := if simulationMode then "http://localhost:3000"
      else getEnvVar env env.API_BASE_URL "API_BASE_URL"
        "http://192.168.0.108:3000",
    timeout := jsParseInt (getEnvVar env env.API_TIMEOUT "API_TIMEOUT" "10000"),
    useHttps := getEnvVar env env.API_USE_HTTPS "API_USE_HTTPS" "false" == "true",
    simulationMode := simulationMode,
    apiKey := some (getEnvVar env env.API_KEY "API_KEY" "") }
/-- Application settings record (AppSettings in api.types.ts). -/
structure AppSettings where
  api : ApiConfig
  refreshInterval : Nat
  theme : String
  notificationsEnabled : Bool
  units : String
  language : String
  simulationMode : Bool
deriving DecidableEq
/-- The getDefaultSettings function of settingsService.ts. -/
def getDefaultSettings (env : Env) : AppSettings :=
  { api := getDefaultApiConfig env,
    refreshInterval := 15000,
    theme := "light",
    notificationsEnabled := true,
    units := "metric",
    language := "fr",
    simulationMode :=
      getEnvVar env env.SIMULATION_MODE "SIMULATION_MODE" "false" == "true" }
/-- A Partial of ApiConfig: a field that is none is absent from the
partial object and survives a spread merge. -/
structure PartialApiConfig where
  baseUrl : Option String := none
  timeout : Option (Option Nat) := none
  authToken : Option (Option String) := none
  useHttps : Option Bool := none
  simulationMode : Option Bool := none
  apiKey : Option (Option String) := none
deriving DecidableEq
/-- JavaScript object spread of a partial ApiConfig over a full one. -/
def mergeApiConfig (a : ApiConfig) (p : PartialApiConfig) : ApiConfig :=
  { baseUrl := p.baseUrl.getD a.baseUrl,
    timeout := p.timeout.getD a.timeout,
    authToken := p.authToken.getD a.authToken,
    useHttps := p.useHttps.getD a.useHttps,
    simulationMode := p.simulationMode.getD a.simulationMode,
    apiKey := p.apiKey.getD a.apiKey }
/-- A Partial of AppSettings. The api field, when present, is a full
ApiConfig, matching the objects the service actually stores there. -/
structure PartialAppSettings where
  api : Option ApiConfig := none
  refreshInterval : Option Nat := none
  theme : Option String := none
  notificationsEnabled : Option Bool := none
  units : Option String := none
  language : Option String := none
  simulationMode : Option Bool := none
deriving DecidableEq
/-- JavaScript object spread of a partial AppSettings over a full one. -/
def mergeSettings (s : AppSettings) (p : PartialAppSettings) : AppSettings :=
  { api := p.api.getD s.api,
    refreshInterval := p.refreshInterval.getD s.refreshInterval,
    theme := p.theme.getD s.theme,
    notificationsEnabled := p.notificationsEnabled.getD s.notificationsEnabled,
    units := p.units.getD s.units,
    language := p.language.getD s.language,
    simulationMode := p.simulationMode.getD s.simulationMode }
/-- View of a full settings record as a partial one with every field
present; JSON serialising and reparsing a full record yields this. -/
def toPartialSettings (s : AppSettings) : PartialAppSettings :=
  { api := some s.api,
    refreshInterval := some s.refreshInterval,
    theme := some s.theme,
    notificationsEnabled := some s.notificationsEnabled,
    units := some s.units,
    language := some s.language,
    simulationMode := some s.simulationMode }
/-- Content of the AsyncStorage slot under the settings key: either a
serialized record (parsed shape kept abstract as the partial settings it
deserialises to) or bytes on which JSON parsing throws. -/
inductive StoredRecord where
  | corrupt
  | record (p : PartialAppSettings)
deriving DecidableEq
/-- Full state of the settings service singleton: the in-memory settings
field plus the durable storage slot (none when no record is stored). -/
structure SettingsState where
  settings : AppSettings
  storage : Option StoredRecord
deriving DecidableEq
namespace SettingsService
/-- State after the private constructor runs on a device with empty
storage: in-memory settings are the computed defaults. -/
def initial (env : Env) : SettingsState :=
  ⟨getDefaultSettings env, none⟩
/-- The loadSettings method: reads the stored record; a present record
is JSON-parsed and spread over the computed defaults; a read or parse
exception is caught and resets the in-memory settings to the defaults; a
missing record leaves the in-memory settings untouched. Returns the
resulting settings and the updated state. -/
def loadSettings (env : Env) (st : SettingsState) (readFails : Bool) :
    AppSettings × SettingsState :=
  if readFails then
    let d := getDefaultSettings env
    (d, ⟨d, st.storage⟩)
  else
    match st.storage with
    | none => (st.settings, st)
    | some StoredRecord.corrupt =>
      let d := getDefaultSettings env
      (d, ⟨d, st.storage⟩)
    | some (StoredRecord.record p) =>
      let s := mergeSettings (getDefaultSettings env) p
      (s, ⟨s, st.storage⟩)
/-- The saveSettings method: spreads the partial update into the
in-memory settings, then writes the full record to storage; a write
failure rethrows (second component true) after the in-memory merge has
already happened. -/
def saveSettings (st : SettingsState) (p : PartialAppSettings)
    (writeFails : Bool) : SettingsState × Bool :=
  let merged := mergeSettings st.settings p
  if writeFails then (⟨merged, st.storage⟩, true)
  else (⟨merged, some (StoredRecord.record (toPartialSettings merged))⟩, false)
/-- The getSettings method (the defensive copy is identity here). -/
def getSettings (st : SettingsState) : AppSettings := st.settings
/-- The getApiConfig method. -/
def getApiConfig (st : SettingsState) : ApiConfig := st.settings.api
/-- The updateApiConfig method: spreads the partial api update over the
current api config and saves the result through saveSettings. -/
def updateApiConfig (st : SettingsState) (pc : PartialApiConfig)
    (writeFails : Bool) : SettingsState × Bool :=
  saveSettings st { api := some (mergeApiConfig st.settings.api pc) } writeFails
/-- One alternative of the IPv4 octet regular expression used by
isValidIpAddress, on an already split octet string:
a single digit, two digits with the first up to one, three digits in the
two-hundreds as in the pattern. The three alternatives are, in order,
25x with x up to five, 2 then a digit up to four then a digit, and an
optional leading zero-or-one followed by one or two digits. -/
def octetOkChars : List Char → Bool
  | [c] => c.isDigit
  | [c1, c2] => c1.isDigit && c2.isDigit
  | [c1, c2, c3] =>
    (c1 == '2' && c2 == '5' && (c3.isDigit && c3.toNat ≤ 53))
    || (c1 == '2' && (c2.isDigit && c2.toNat ≤ 52) && c3.isDigit)
    || ((c1 == '0' || c1 == '1') && c2.isDigit && c3.isDigit)
  | _ => false
/-- The private isValidIpAddress method: the anchored dotted-quad
regular expression (exactly four octet groups separated by dots), or the
literal string localhost. -/
def isValidIpAddress (ip : String) : Bool :=
  (let parts := splitOnChar '.' ip.data
   parts.length == 4 && parts.all octetOkChars)
  || ip == "localhost"
/-- URL composition in setCustomBackendUrl: the template literal
protocol colon slash slash ip colon port, protocol chosen from the
useHttps flag of the current api config. -/
def composeUrl (useHttps : Bool) (ip : String) (port : Nat) : String :=
  (if useHttps then "https" else "http") ++ "://" ++ ip ++ ":" ++
    natToString port
/-- The setCustomBackendUrl method: validates the ip, throws on invalid
input before touching anything (none result, unchanged state), otherwise
persists the composed base URL through updateApiConfig and returns the
new api config; a storage failure rethrows (none result). -/
def setCustomBackendUrl (st : SettingsState) (ip : String) (port : Nat)
    (writeFails : Bool) : SettingsState × Option ApiConfig :=
  if isValidIpAddress ip then
    let baseUrl := composeUrl st.settings.api.useHttps ip port
    match updateApiConfig st { baseUrl := some baseUrl } writeFails with
    | (st1, true) => (st1, none)
    | (st1, false) => (st1, some (getApiConfig st1))
  else (st, none)
/-- The toggleSimulationMode method: flips the top-level flag, picks the
loopback URL when enabling and the environment default URL when
disabling, saves the flag, then saves the api config with the new base
URL and flag. -/
def toggleSimulationMode (env : Env) (st : SettingsState)
    (writeFails : Bool) : SettingsState × Option ApiConfig :=
  let simulationMode := !st.settings.simulationMode
  let baseUrl := if simulationMode then "http://localhost:3000"
    else jsOrStr env.API_BASE_URL "http://192.168.0.108:3000"
  match saveSettings st { simulationMode := some simulationMode } writeFails with
  | (st1, true) => (st1, none)
  | (st1, false) =>
    match updateApiConfig st1
        { baseUrl := some baseUrl, simulationMode := some simulationMode }
        writeFails with
    | (st2, true) => (st2, none)
    | (st2, false) => (st2, some (getApiConfig st2))
end SettingsService
/-! ## URL parser fragment

parseBackendUrl delegates to the JavaScript URL constructor. The
constructor is not code of this repository; the fragment of the WHATWG
URL standard that this service exercises is embedded below: lowercase
http or https scheme, an authority without user info, a host that is a
registrable domain or a dotted IPv4 address (decimal or octal labels),
an optional decimal port up to 65535 that is elided from the port
property when it equals the scheme default. Inputs outside the fragment
(other or uppercase schemes, IPv6, percent escapes, hex or fewer-than-
four-label IPv4 forms, whitespace) are mapped to parse failure; none of
them is produced by composeUrl. -/
/-- Result of the URL constructor: the hostname and port properties. -/
structure URLObj where
  hostname : String
  port : String
deriving DecidableEq
/-- Characters the modelled host parser accepts: ASCII digits, lowercase
letters, dot and hyphen. -/
def isHostChar (c : Char) : Bool :=
  c.isDigit || (97 ≤ c.toNat && c.toNat ≤ 122) || c == '.' || c == '-'
/-- Octal digit test for the legacy IPv4 label form. -/
def isOctalDigitChar (c : Char) : Bool :=
  48 ≤ c.toNat && c.toNat ≤ 55
/-- Hex digit test for the ends-in-a-number check. -/
def isHexDigitChar (c : Char) : Bool :=
  c.isDigit || (97 ≤ c.toNat && c.toNat ≤ 102) || (65 ≤ c.toNat && c.toNat ≤ 70)
/-- Value of a list of octal digit characters. -/
def octalVal (l : List Char) : Nat :=
  l.foldl (fun a c => 8 * a + charVal c) 0
/-- WHATWG IPv4 number parser on an all-decimal label: a leading zero on
a longer label switches to octal and fails on digits eight and nine. -/
def partNumVal (p : List Char) : Option Nat :=
  if 2 ≤ p.length ∧ p.head? = some '0' then
    if p.tail.all isOctalDigitChar then some (octalVal p.tail) else none
  else
    some (parseDigitsVal p)
/-- The ends-in-a-number check of the host parser: the last label is all
decimal digits or a 0x-prefixed hex string. -/
def numberLikePart (p : List Char) : Bool :=
  (!p.isEmpty && p.all Char.isDigit)
  || (match p with
      | '0' :: 'x' :: rest => rest.all isHexDigitChar
      | '0' :: 'X' :: rest => rest.all isHexDigitChar
      | _ => false)
/-- Every dot-separated label is a non-empty decimal digit string. -/
def allDigitParts (parts : List (List Char)) : Bool :=
  parts.all (fun p => !p.isEmpty && p.all Char.isDigit)
/-- Canonical dotted-quad character list of four octet values, each in
plain decimal: the serialization of a parsed IPv4 host. -/
def quadChars (a b c d : Nat) : List Char :=
  renderNatChars a ++ '.' :: (renderNatChars b ++ '.' ::
    (renderNatChars c ++ '.' :: renderNatChars d))

/-- Canonical dotted-quad string. -/
def quadString (a b c d : Nat) : String := ⟨quadChars a b c d⟩

/-- Host canonicalization: a four-label all-decimal host is parsed as an
IPv4 address (octal labels included) and re-serialized in canonical
dotted decimal; a host whose last label looks like a number but which is
not such a quad fails; anything else is a domain kept as is. -/
def canonHost (host : List Char) : Option (List Char) :=
  if host.isEmpty then none
  else if !(host.all isHostChar) then none
  else
    let parts := splitOnChar '.' host
    if allDigitParts parts then
      match parts with
      | [p1, p2, p3, p4] =>
        match partNumVal p1, partNumVal p2, partNumVal p3, partNumVal p4 with
        | some a, some b, some c, some d =>
          if a ≤ 255 && b ≤ 255 && c ≤ 255 && d ≤ 255 then
            some (quadChars a b c d)
          else none
        | _, _, _, _ => none
      | _ => none
    else if parts.any (fun p => p.isEmpty) then none
    else if (match parts.getLast? with
             | some p => numberLikePart p
             | none => false) then none
    else some host
/-- Default port of the two special schemes in the fragment. -/
def defaultPortFor (https : Bool) : Nat := if https then 443 else 80
/-- Scheme recognizer of the fragment: literal lowercase http or https
followed by colon slash slash. -/
def stripHttpScheme : List Char → Option (Bool × List Char)
  | 'h' :: 't' :: 't' :: 'p' :: 's' :: ':' :: '/' :: '/' :: rest =>
    some (true, rest)
  | 'h' :: 't' :: 't' :: 'p' :: ':' :: '/' :: '/' :: rest =>
    some (false, rest)
  | _ => none
/-- A character that does not end the authority component. -/
def notUrlDelim (c : Char) : Bool :=
  !(c == '/' || c == '?' || c == '#')
/-- The URL constructor on a character list, per the fragment above:
returns the hostname and serialized port properties, or none where the
constructor throws. -/
def urlParseCore (l : List Char) : Option URLObj :=
  match stripHttpScheme l with
  | none => none
  | some (isHttps, rest) =>
    let authority := rest.takeWhile notUrlDelim
    if authority.any (fun c => c == '@') then none
    else
      let hp := splitAtChar ':' authority
      match canonHost hp.1 with
      | none => none
      | some hostC =>
        match hp.2 with
        | none => some ⟨⟨hostC⟩, ""⟩
        | some ps =>
          if ps.all Char.isDigit then
            if ps.isEmpty then some ⟨⟨hostC⟩, ""⟩
            else
              let v := parseDigitsVal ps
              if 65535 < v then none
              else if v = defaultPortFor isHttps then some ⟨⟨hostC⟩, ""⟩
              else some ⟨⟨hostC⟩, ⟨renderNatChars v⟩⟩
          else none
/-- The URL constructor on a string. -/
def urlParse (s : String) : Option URLObj := urlParseCore s.data
/-- Ip and port pair returned by parseBackendUrl. -/
structure IpPort where
  ip : String
  port : Nat
deriving DecidableEq
/-- JavaScript parseInt of the port property or-else 3000: the empty
port property gives NaN, a zero port is falsy, both fall back. -/
def jsPortOr3000 (s : String) : Nat :=
  match jsParseInt s with
  | none => 3000
  | some v => if v = 0 then 3000 else v
/-- The parseBackendUrl method of settingsService.ts: hostname and
parsed port of the URL, or the fixed fallback pair when the URL
constructor throws (the catch branch). Total by construction, which is
the never-throws guarantee of the method. -/
def SettingsService.parseBackendUrl (url : String) : IpPort :=
  match urlParse url with
  | some u => ⟨u.hostname, jsPortOr3000 u.port⟩
  | none => ⟨"192.168.0.108", 3000⟩
/-! ## API client model

Embedding of src/services/apiService.ts. The axios instance is modelled
by its defaults record (bound base URL, timeout, common header map);
the outcome of one HTTP exchange is an explicit HttpOutcome value, and
the axios settlement rule (default validateStatus resolves exactly the
2xx range, everything else rejects through the response interceptor) is
the settle function. -/
/-- Normalized error shape (ApiError in api.types.ts). -/
structure ApiError where
  status : Nat
  message : String
  error : Option String
  timestamp : String
deriving DecidableEq
/-- Fields of a parsed error response body that the interceptor reads. -/
structure RespBody where
  message : Option String := none
  error : Option String := none
deriving DecidableEq
/-- The response field of an axios error: present when an HTTP response
was received. -/
structure AxiosResponseModel where
  status : Nat
  data : RespBody
deriving DecidableEq
/-- An axios rejection: optional response plus the transport-level error
message string of the error object. -/
structure AxiosErrorModel where
  response : Option AxiosResponseModel
  message : String
deriving DecidableEq
namespace ApiService
/-- The error branch of the response interceptor: status from the
response or-else 0, message from the body message field or-else the
error message or-else the literal fallback, the optional body error
field, and the current time. -/
def normalizeError (e : AxiosErrorModel) (now : String) : ApiError :=
  { status := match e.response with
      | some r => r.status
      | none => 0,
    message := jsOrStr (e.response.bind (fun r => r.data.message))
      (jsOrStr (some e.message) "Communication error"),
    error := e.response.bind (fun r => r.data.error),
    timestamp := now }
/-- Outcome of the underlying HTTP exchange of one request: no response
received (DNS failure, timeout, refused connection) with the transport
error message, or a response with a status and parsed body. -/
inductive HttpOutcome where
  | noResponse (errMessage : String)
  | response (status : Nat) (body : RespBody)
deriving DecidableEq
/-- The axios error message for a non-2xx response. -/
def httpFailMessage (status : Nat) : String :=
  "Request failed with status code " ++ natToString status
/-- Axios settlement of one exchange: a 2xx response resolves; anything
else rejects and the rejection passes through the interceptor. -/
def settle (o : HttpOutcome) (now : String) : Except ApiError (Nat × RespBody) :=
  match o with
  | HttpOutcome.noResponse msg =>
    Except.error (normalizeError ⟨none, msg⟩ now)
  | HttpOutcome.response s b =>
    if 200 ≤ s ∧ s < 300 then Except.ok (s, b)
    else Except.error (normalizeError ⟨some ⟨s, b⟩, httpFailMessage s⟩ now)
/-- What a generic get or post surfaces to the caller: the response body
on resolution, the normalized error on rejection. -/
def requestResult (o : HttpOutcome) (now : String) : Except ApiError RespBody :=
  match settle o now with
  | Except.ok (_, b) => Except.ok b
  | Except.error e => Except.error e
/-- Insert or replace a header in the common header map. -/
def setHeader (h : List (String × String)) (k v : String) :
    List (String × String) :=
  match h with
  | [] => [(k, v)]
  | (k1, v1) :: t => if k1 == k then (k, v) :: t else (k1, v1) :: setHeader t k v
/-- Delete a header from the common header map. -/
def removeHeader (h : List (String × String)) (k : String) :
    List (String × String) :=
  h.filter (fun p => !(p.1 == k))
/-- Read a header from the common header map. -/
def headerLookup (h : List (String × String)) (k : String) : Option String :=
  (h.find? (fun p => p.1 == k)).map (fun p => p.2)
/-- Axios instance defaults: bound base URL, timeout, common headers. -/
structure AxiosDefaults where
  baseURL : String
  timeout : Nat
  headers : List (String × String)
deriving DecidableEq
/-- State of the ApiService singleton: its config field plus the axios
instance defaults. -/
structure ApiServiceState where
  config : ApiConfig
  defaults : AxiosDefaults
deriving DecidableEq
/-- The constructor: stores the config and creates the axios instance
bound to the base URL, the configured timeout or-else 10000, the JSON
content type header, and the api key and bearer headers exactly when the
corresponding fields are truthy. -/
def create (config : ApiConfig) : ApiServiceState :=
  { config := config,
    defaults :=
      { baseURL := config.baseUrl,
        timeout := jsOrNat config.timeout 10000,
        headers := [("Content-Type", "application/json")]
          ++ (match config.apiKey with
              | some k => if k == "" then [] else [("x-api-key", k)]
              | none => [])
          ++ (match config.authToken with
              | some t => if t == "" then []
                  else [("Authorization", "Bearer " ++ t)]
              | none => []) } }
/-- The updateConfig method: replaces the config field, rebinds the base
URL and timeout, and sets or deletes the api key and bearer headers by
the truthiness of the new fields. -/
def updateConfig (s : ApiServiceState) (newConfig : ApiConfig) :
    ApiServiceState :=
  let h0 := s.defaults.headers
  let h1 := match newConfig.apiKey with
    | some k => if k == "" then removeHeader h0 "x-api-key"
        else setHeader h0 "x-api-key" k
    | none => removeHeader h0 "x-api-key"
  let h2 := match newConfig.authToken with
    | some t => if t == "" then removeHeader h1 "Authorization"
        else setHeader h1 "Authorization" ("Bearer " ++ t)
    | none => removeHeader h1 "Authorization"
  { config := newConfig,
    defaults := { baseURL := newConfig.baseUrl,
                  timeout := jsOrNat newConfig.timeout 10000,
                  headers := h2 } }
/-- The getConfig method. -/
def getConfig (s : ApiServiceState) : ApiConfig := s.config
/-- Shape of one outgoing request as dispatched by axios. -/
structure Request where
  url : String
  timeout : Nat
  headers : List (String × String)
deriving DecidableEq
/-- Effective timeout of a request: the per-request override when given,
else the instance default. -/
def requestTimeoutWith (s : ApiServiceState) (override : Option Nat) : Nat :=
  match override with
  | some t => t
  | none => s.defaults.timeout
/-- The request the generic get and post primitives issue from a given
state: base URL plus relative path, instance defaults for timeout and
headers, no per-request override. -/
def nextRequest (s : ApiServiceState) (path : String) : Request :=
  ⟨s.defaults.baseURL ++ path, requestTimeoutWith s none, s.defaults.headers⟩
/-- The request testConnection issues: the fixed health path with a
literal 5000 per-request timeout override. -/
def healthRequest (s : ApiServiceState) : Request :=
  ⟨s.defaults.baseURL ++ "/health", requestTimeoutWith s (some 5000),
    s.defaults.headers⟩
/-- The testConnection method: awaits the health request and compares
the resolved status to 200; every rejection is caught and becomes false. -/
def testConnection (o : HttpOutcome) (now : String) : Bool :=
  match settle o now with
  | Except.ok (s, _) => s == 200
  | Except.error _ => false
end ApiService

/-! ## Supporting lemmas -/

theorem digitChar_lt_ten (k : Nat) (hk : k < 10) :
    (digitChar k).isDigit = true ∧ charVal (digitChar k) = k ∧
      (digitChar k).toNat = 48 + k := by
  interval_cases k <;> exact ⟨by decide, by decide, by decide⟩

theorem parseDigitsVal_append_singleton (l : List Char) (c : Char) :
    parseDigitsVal (l ++ [c]) = 10 * parseDigitsVal l + charVal c := by
  simp [parseDigitsVal, List.foldl_append]

theorem renderNatAux_spec (fuel : Nat) :
    ∀ n, n < fuel →
      (renderNatAux fuel n).all Char.isDigit = true ∧
      renderNatAux fuel n ≠ [] ∧
      parseDigitsVal (renderNatAux fuel n) = n := by
  induction fuel with
  | zero => intro n hn; omega
  | succ f ih =>
    intro n hn
    by_cases h : n < 10
    · refine ⟨?_, ?_, ?_⟩ <;> simp [renderNatAux, if_pos h,
        (digitChar_lt_ten n h).1, parseDigitsVal, (digitChar_lt_ten n h).2.1]
    · have hdiv : n / 10 < f := by omega
      obtain ⟨ha, hb, hc⟩ := ih (n / 10) hdiv
      refine ⟨?_, ?_, ?_⟩
      · simp [renderNatAux, if_neg h, List.all_append, ha,
          (digitChar_lt_ten (n % 10) (Nat.mod_lt n (by omega))).1]
      · simp [renderNatAux, if_neg h]
      · rw [renderNatAux, if_neg h, parseDigitsVal_append_singleton, hc,
          (digitChar_lt_ten (n % 10) (Nat.mod_lt n (by omega))).2.1]
        omega

theorem renderNatAux_stable (f : Nat) :
    ∀ g n, n < f → n < g → renderNatAux f n = renderNatAux g n := by
  induction f with
  | zero => intro g n hn; omega
  | succ f ih =>
    intro g n hnf hng
    match g with
    | g + 1 =>
      by_cases h : n < 10
      · simp [renderNatAux, if_pos h]
      · have h1 : n / 10 < f := by omega
        have h2 : n / 10 < g := by omega
        simp [renderNatAux, if_neg h, ih g (n / 10) h1 h2]

theorem renderNatChars_all_digit (n : Nat) :
    (renderNatChars n).all Char.isDigit = true :=
  (renderNatAux_spec (n + 1) n (by omega)).1

theorem renderNatChars_ne_nil (n : Nat) : renderNatChars n ≠ [] :=
  (renderNatAux_spec (n + 1) n (by omega)).2.1

theorem parseDigitsVal_renderNatChars (n : Nat) :
    parseDigitsVal (renderNatChars n) = n :=
  (renderNatAux_spec (n + 1) n (by omega)).2.2

theorem renderNatChars_lt_ten (n : Nat) (h : n < 10) :
    renderNatChars n = [digitChar n] := by
  simp [renderNatChars, renderNatAux, if_pos h]

theorem renderNatChars_ge_ten (n : Nat) (h : 10 ≤ n) :
    renderNatChars n = renderNatChars (n / 10) ++ [digitChar (n % 10)] := by
  rw [renderNatChars, renderNatAux, if_neg (by omega)]
  rw [renderNatAux_stable n (n / 10 + 1) (n / 10) (by omega) (by omega)]
  rfl

theorem renderNatChars_head_ne_zero (fuel : Nat) :
    ∀ n, n < fuel → 0 < n → (renderNatAux fuel n).head? ≠ some '0' := by
  induction fuel with
  | zero => intro n hn; omega
  | succ f ih =>
    intro n hn hpos
    by_cases h : n < 10
    · simp only [renderNatAux, if_pos h, List.head?_cons, ne_eq,
        Option.some.injEq]
      interval_cases n <;> decide
    · have hne := (renderNatAux_spec f (n / 10) (by omega)).2.1
      simp only [renderNatAux, if_neg h]
      rw [List.head?_append_of_ne_nil _ hne]
      exact ih (n / 10) (by omega) (by omega)

theorem splitAtChar_no_sep (sep : Char) (l : List Char)
    (h : ∀ c ∈ l, c ≠ sep) : splitAtChar sep l = (l, none) := by
  induction l with
  | nil => rfl
  | cons c l ih =>
    have hc : c ≠ sep := h c (List.mem_cons_self c l)
    simp only [splitAtChar, if_neg hc,
      ih fun x hx => h x (List.mem_cons_of_mem c hx)]

theorem splitAtChar_append (sep : Char) (a b : List Char)
    (h : ∀ c ∈ a, c ≠ sep) : splitAtChar sep (a ++ sep :: b) = (a, some b) := by
  induction a with
  | nil => simp [splitAtChar]
  | cons c a ih =>
    have hc : c ≠ sep := h c (List.mem_cons_self c a)
    have ih2 := ih fun x hx => h x (List.mem_cons_of_mem c hx)
    simp only [List.cons_append, splitAtChar, if_neg hc]
    show (c :: (splitAtChar sep (a ++ sep :: b)).1,
        (splitAtChar sep (a ++ sep :: b)).2) = (c :: a, some b)
    rw [ih2]

theorem splitOnChar_ne_nil (sep : Char) (l : List Char) :
    splitOnChar sep l ≠ [] := by
  cases l with
  | nil => simp [splitOnChar]
  | cons c rest =>
    by_cases h : c = sep
    · simp [splitOnChar, if_pos h]
    · simp only [splitOnChar, if_neg h]
      cases splitOnChar sep rest <;> simp

theorem splitOnChar_no_sep (sep : Char) (l : List Char)
    (h : ∀ c ∈ l, c ≠ sep) : splitOnChar sep l = [l] := by
  induction l with
  | nil => rfl
  | cons c l ih =>
    have hc : c ≠ sep := h c (List.mem_cons_self c l)
    simp only [splitOnChar, if_neg hc,
      ih fun x hx => h x (List.mem_cons_of_mem c hx)]

theorem splitOnChar_append (sep : Char) (a b : List Char)
    (h : ∀ c ∈ a, c ≠ sep) :
    splitOnChar sep (a ++ sep :: b) = a :: splitOnChar sep b := by
  induction a with
  | nil => simp [splitOnChar]
  | cons c a ih =>
    have hc : c ≠ sep := h c (List.mem_cons_self c a)
    have ih2 := ih fun x hx => h x (List.mem_cons_of_mem c hx)
    simp only [List.cons_append, splitOnChar, if_neg hc]
    show (match splitOnChar sep (a ++ sep :: b) with
      | [] => [[c]]
      | h :: t => (c :: h) :: t) = (c :: a) :: splitOnChar sep b
    rw [ih2]

/-- Takewhile over a list all of whose elements satisfy the predicate. -/
theorem takeWhile_all (p : Char → Bool) (l : List Char)
    (h : ∀ c ∈ l, p c = true) : l.takeWhile p = l := by
  induction l with
  | nil => rfl
  | cons c l ih =>
    simp [List.takeWhile_cons, h c (List.mem_cons_self c l),
      ih fun x hx => h x (List.mem_cons_of_mem c hx)]

theorem jsOrStr_some_ne (s d : String) (h : s ≠ "") : jsOrStr (some s) d = s := by
  simp [jsOrStr, h]

theorem list_any_eq_false {α : Type} (p : α → Bool) (l : List α)
    (h : ∀ c ∈ l, p c = false) : l.any p = false := by
  induction l with
  | nil => rfl
  | cons c t ih =>
    simp [List.any_cons, h c (List.mem_cons_self c t),
      ih fun x hx => h x (List.mem_cons_of_mem c hx)]

theorem headerLookup_setHeader_self (h : List (String × String)) (k v : String) :
    ApiService.headerLookup (ApiService.setHeader h k v) k = some v := by
  induction h with
  | nil => simp [ApiService.setHeader, ApiService.headerLookup, List.find?]
  | cons p t ih =>
    obtain ⟨k1, v1⟩ := p
    by_cases hk : k1 = k
    · subst hk
      simp [ApiService.setHeader, ApiService.headerLookup, List.find?]
    · have hb : (k1 == k) = false := beq_eq_false_iff_ne.mpr hk
      simp only [ApiService.setHeader, hb, Bool.false_eq_true, if_false]
      simpa [ApiService.headerLookup, List.find?, hb] using ih

theorem headerLookup_setHeader_other (h : List (String × String))
    (k k2 v : String) (hne : k ≠ k2) :
    ApiService.headerLookup (ApiService.setHeader h k v) k2 =
      ApiService.headerLookup h k2 := by
  have hb2 : (k == k2) = false := beq_eq_false_iff_ne.mpr hne
  induction h with
  | nil => simp [ApiService.setHeader, ApiService.headerLookup, List.find?, hb2]
  | cons p t ih =>
    obtain ⟨k1, v1⟩ := p
    by_cases hk : k1 = k
    · subst hk
      have hb1 : (k1 == k1) = true := beq_self_eq_true k1
      simp [ApiService.setHeader, ApiService.headerLookup, List.find?, hb2]
    · have hb : (k1 == k) = false := beq_eq_false_iff_ne.mpr hk
      simp only [ApiService.setHeader, hb, Bool.false_eq_true, if_false]
      by_cases hk2 : k1 = k2
      · subst hk2
        simp [ApiService.headerLookup, List.find?]
      · have hc : (k1 == k2) = false := beq_eq_false_iff_ne.mpr hk2
        simpa [ApiService.headerLookup, List.find?, hc] using ih

theorem headerLookup_removeHeader_self (h : List (String × String)) (k : String) :
    ApiService.headerLookup (ApiService.removeHeader h k) k = none := by
  induction h with
  | nil => rfl
  | cons p t ih =>
    obtain ⟨k1, v1⟩ := p
    by_cases hk : k1 = k
    · subst hk
      simp only [ApiService.removeHeader, List.filter, beq_self_eq_true,
        Bool.not_true] at ih ⊢
      exact ih
    · have hb : (k1 == k) = false := beq_eq_false_iff_ne.mpr hk
      simp only [ApiService.removeHeader, List.filter, hb, Bool.not_false,
        ApiService.headerLookup, List.find?] at ih ⊢
      exact ih

theorem headerLookup_removeHeader_other (h : List (String × String))
    (k k2 : String) (hne : k ≠ k2) :
    ApiService.headerLookup (ApiService.removeHeader h k) k2 =
      ApiService.headerLookup h k2 := by
  induction h with
  | nil => rfl
  | cons p t ih =>
    obtain ⟨k1, v1⟩ := p
    by_cases hk : k1 = k
    · subst hk
      have hb : (k1 == k2) = false := beq_eq_false_iff_ne.mpr hne
      simpa [ApiService.removeHeader, ApiService.headerLookup, List.filter,
        List.find?, hb] using ih
    · have hb : (k1 == k) = false := beq_eq_false_iff_ne.mpr hk
      by_cases hk2 : k1 = k2
      · subst hk2
        simp [ApiService.removeHeader, ApiService.headerLookup, List.filter,
          List.find?, hb]
      · have hc : (k1 == k2) = false := beq_eq_false_iff_ne.mpr hk2
        simpa [ApiService.removeHeader, ApiService.headerLookup, List.filter,
          List.find?, hb, hc] using ih

theorem isHostChar_of_isDigit (c : Char) (h : c.isDigit = true) :
    isHostChar c = true := by
  simp [isHostChar, h]

theorem isHostChar_good (c : Char) (h : isHostChar c = true) :
    notUrlDelim c = true ∧ (c == '@') = false ∧ c ≠ ':' := by
  rcases eq_or_ne c '/' with rfl | h1
  · exact absurd h (by decide)
  rcases eq_or_ne c '?' with rfl | h2
  · exact absurd h (by decide)
  rcases eq_or_ne c '#' with rfl | h3
  · exact absurd h (by decide)
  rcases eq_or_ne c '@' with rfl | h4
  · exact absurd h (by decide)
  rcases eq_or_ne c ':' with rfl | h5
  · exact absurd h (by decide)
  refine ⟨?_, ?_, h5⟩ <;> simp [notUrlDelim, h1, h2, h3, h4]

theorem isDigit_ne_dot (c : Char) (h : c.isDigit = true) : c ≠ '.' := by
  rintro rfl; exact absurd h (by decide)

/-! ## Claim theorems -/

/-- C9: parseBackendUrl is a total function (the never-throws guarantee):
when the URL constructor parses the string it returns the hostname and
the parsed port (parseInt of the port property or-else 3000, exactly as
the method computes it), and on every string the constructor throws on,
such as garbage, it returns the fixed fallback pair. -/
theorem parseBackendUrl_total_spec (s : String) :
    (∀ u, urlParse s = some u →
      SettingsService.parseBackendUrl s = ⟨u.hostname, jsPortOr3000 u.port⟩) ∧
    (urlParse s = none →
      SettingsService.parseBackendUrl s = ⟨"192.168.0.108", 3000⟩) ∧
    SettingsService.parseBackendUrl "garbage" = ⟨"192.168.0.108", 3000⟩ := by
  refine ⟨fun u hu => ?_, fun hn => ?_, by decide⟩
  · simp [SettingsService.parseBackendUrl, hu]
  · simp [SettingsService.parseBackendUrl, hn]

/-- C9 witness: the garbage string hits the fallback branch. -/
theorem parseBackendUrl_total_spec_witness :
    SettingsService.parseBackendUrl "garbage" = ⟨"192.168.0.108", 3000⟩ :=
  (parseBackendUrl_total_spec "garbage").2.1 (by decide)

/-- C10: saveSettings is not atomic on storage failure: the shallow merge
into the in-memory settings happens before the write, so when the write
fails the call throws, getSettings already returns the merged values,
and durable storage still holds the old record. -/
theorem saveSettings_not_atomic (st : SettingsState) (p : PartialAppSettings) :
    (SettingsService.saveSettings st p true).2 = true ∧
    SettingsService.getSettings (SettingsService.saveSettings st p true).1 =
      mergeSettings st.settings p ∧
    (SettingsService.saveSettings st p true).1.storage = st.storage :=
  ⟨rfl, rfl, rfl⟩

/-- C8 is refuted on the missing-record branch: a state in which the
in-memory settings were modified while storage stayed empty is reachable
(a saveSettings call whose write fails), and from it loadSettings with a
missing record returns the modified in-memory settings, not the computed
defaults. -/
theorem loadSettings_missing_counterexample :
    ((SettingsService.saveSettings (SettingsService.initial {})
        { theme := some "dark" } true).1.storage = none) ∧
    (SettingsService.loadSettings {}
        (SettingsService.saveSettings (SettingsService.initial {})
          { theme := some "dark" } true).1 false).1.theme = "dark" ∧
    (getDefaultSettings {}).theme = "light" ∧
    (SettingsService.loadSettings {}
        (SettingsService.saveSettings (SettingsService.initial {})
          { theme := some "dark" } true).1 false).1 ≠
      getDefaultSettings {} := by
  refine ⟨rfl, rfl, rfl, ?_⟩
  decide

/-- C8 (amended): loadSettings returns the computed defaults when the
storage read or the JSON parse fails, the stored record merged over the
computed defaults when a record is present, and the current in-memory
settings unchanged when the record is missing (these equal the computed
defaults at startup but not after an in-memory modification whose write
failed); in every case the returned value becomes the in-memory cache. -/
theorem loadSettings_spec (env : Env) (st : SettingsState) :
    (∀ rf, (SettingsService.loadSettings env st rf).2.settings =
      (SettingsService.loadSettings env st rf).1) ∧
    (SettingsService.loadSettings env st true).1 = getDefaultSettings env ∧
    (st.storage = none →
      SettingsService.loadSettings env st false = (st.settings, st)) ∧
    (st.storage = some StoredRecord.corrupt →
      (SettingsService.loadSettings env st false).1 = getDefaultSettings env) ∧
    (∀ p, st.storage = some (StoredRecord.record p) →
      (SettingsService.loadSettings env st false).1 =
        mergeSettings (getDefaultSettings env) p) := by
  refine ⟨fun rf => ?_, rfl, fun h => ?_, fun h => ?_, fun p h => ?_⟩
  · cases rf
    · cases hs : st.storage with
      | none => simp [SettingsService.loadSettings, hs]
      | some r => cases r <;> simp [SettingsService.loadSettings, hs]
    · rfl
  · simp [SettingsService.loadSettings, h]
  · simp [SettingsService.loadSettings, h]
  · simp [SettingsService.loadSettings, h]

/-- C8 witness: at startup the record is missing and the cache still
holds the defaults, so the missing-record branch returns them. -/
theorem loadSettings_spec_witness :
    SettingsService.loadSettings {} (SettingsService.initial {}) false =
      ((SettingsService.initial {}).settings, SettingsService.initial {}) :=
  (loadSettings_spec {} (SettingsService.initial {})).2.2.1 rfl

/-- C4: an invalid ip string (neither the dotted-quad pattern nor
localhost) makes setCustomBackendUrl throw synchronously with the whole
state, settings and storage alike, unchanged, whatever the storage
outcome would have been. -/
theorem setCustomBackendUrl_invalid (st : SettingsState) (ip : String)
    (port : Nat) (wf : Bool) (h : SettingsService.isValidIpAddress ip = false) :
    SettingsService.setCustomBackendUrl st ip port wf = (st, none) := by
  simp [SettingsService.setCustomBackendUrl, h]

/-- C4 witness: the two example strings of the claim are rejected with
the state unchanged, for both storage outcomes. -/
theorem setCustomBackendUrl_invalid_witness :
    SettingsService.setCustomBackendUrl (SettingsService.initial {})
      "999.1.1.1" 3000 false = (SettingsService.initial {}, none) ∧
    SettingsService.setCustomBackendUrl (SettingsService.initial {})
      "not-an-ip" 3000 true = (SettingsService.initial {}, none) :=
  ⟨setCustomBackendUrl_invalid _ _ _ _ (by decide),
   setCustomBackendUrl_invalid _ _ _ _ (by decide)⟩

/-- C3: a valid ip (the dotted-quad regular expression or localhost)
makes setCustomBackendUrl succeed when the storage write succeeds: the
returned config is the new api config, whose base URL is the composed
scheme-ip-port string with the scheme chosen by the current useHttps
flag, and the full updated record is persisted. -/
theorem setCustomBackendUrl_valid (st : SettingsState) (ip : String)
    (port : Nat) (h : SettingsService.isValidIpAddress ip = true) :
    (SettingsService.setCustomBackendUrl st ip port false).2 =
      some ((SettingsService.setCustomBackendUrl st ip port false).1.settings.api) ∧
    (SettingsService.setCustomBackendUrl st ip port false).1.settings.api.baseUrl =
      SettingsService.composeUrl st.settings.api.useHttps ip port ∧
    (SettingsService.setCustomBackendUrl st ip port false).1.storage =
      some (StoredRecord.record (toPartialSettings
        (SettingsService.setCustomBackendUrl st ip port false).1.settings)) := by
  refine ⟨?_, ?_, ?_⟩ <;>
    simp [SettingsService.setCustomBackendUrl, h,
      SettingsService.updateApiConfig, SettingsService.saveSettings,
      SettingsService.getApiConfig, mergeSettings, mergeApiConfig]

/-- C3 witness: a concrete quad and port with the default state. -/
theorem setCustomBackendUrl_valid_witness :
    SettingsService.isValidIpAddress "192.168.1.50" = true ∧
    (SettingsService.setCustomBackendUrl (SettingsService.initial {})
        "192.168.1.50" 8080 false).1.settings.api.baseUrl =
      "http://192.168.1.50:8080" := by
  refine ⟨by decide, ?_⟩
  rw [(setCustomBackendUrl_valid (SettingsService.initial {})
    "192.168.1.50" 8080 (by decide)).2.1]
  decide

/-- C6: testConnection never throws for any outcome (it is a total
boolean function): it returns true exactly when the health endpoint
answers status 200, false on every transport failure and on every other
status, and the request it issues always carries the fixed 5000 timeout
whatever the configured instance timeout is. -/
theorem testConnection_spec (s : ApiService.ApiServiceState)
    (o : ApiService.HttpOutcome) (now : String) :
    (ApiService.healthRequest s).timeout = 5000 ∧
    ApiService.testConnection o now =
      (match o with
       | ApiService.HttpOutcome.response status _ => status == 200
       | ApiService.HttpOutcome.noResponse _ => false) := by
  refine ⟨rfl, ?_⟩
  cases o with
  | noResponse m => rfl
  | response status b =>
    simp only [ApiService.testConnection, ApiService.settle]
    by_cases h : 200 ≤ status ∧ status < 300
    · rw [if_pos h]
    · rw [if_neg h]
      have hne : status ≠ 200 := fun heq => h (by omega)
      exact (beq_eq_false_iff_ne.mpr hne).symm

/-- C2 is refuted at an empty body message: a 500 response whose body
message field is present but holds the empty string surfaces the axios
transport error text, not the empty body message, because the empty
string is falsy in the or-else chain. -/
theorem normalizeError_empty_message_counterexample :
    ApiService.requestResult
      (ApiService.HttpOutcome.response 500 { message := some "", error := none }) "T"
    = Except.error
        { status := 500,
          message := "Request failed with status code 500",
          error := none, timestamp := "T" } ∧
    ("Request failed with status code 500" : String) ≠ "" := by
  refine ⟨?_, by decide⟩
  rfl

/-- C2 (amended): every failed request surfaces the normalized shape
with the current timestamp: a transport failure (no response) gives
status 0; an HTTP error response with status S and a non-empty body
message m gives status S and message m; an HTTP error response whose
body has no message field falls back to the axios error text or-else the
literal communication-error fallback. -/
theorem requestResult_error_spec (now : String) :
    (∀ m, ApiService.requestResult (ApiService.HttpOutcome.noResponse m) now =
      Except.error
        { status := 0,
          message := jsOrStr (some m) "Communication error",
          error := none, timestamp := now }) ∧
    (∀ S b m, ¬(200 ≤ S ∧ S < 300) → b.message = some m → m ≠ "" →
      ApiService.requestResult (ApiService.HttpOutcome.response S b) now =
        Except.error
          { status := S, message := m, error := b.error,
            timestamp := now }) ∧
    (∀ S b, ¬(200 ≤ S ∧ S < 300) → b.message = none →
      ApiService.requestResult (ApiService.HttpOutcome.response S b) now =
        Except.error
          { status := S,
            message := jsOrStr (some (ApiService.httpFailMessage S))
              "Communication error",
            error := b.error, timestamp := now }) := by
  refine ⟨fun m => rfl, fun S b m h hm hne => ?_, fun S b h hm => ?_⟩
  · simp [ApiService.requestResult, ApiService.settle, if_neg h,
      ApiService.normalizeError, hm, jsOrStr_some_ne m _ hne]
  · simp [ApiService.requestResult, ApiService.settle, if_neg h,
      ApiService.normalizeError, hm, jsOrStr]

/-- C2 witness: the HTTP 500 with body message boom of the claim
surfaces as status 500 message boom. -/
theorem requestResult_error_spec_witness :
    ApiService.requestResult (ApiService.HttpOutcome.response 500
      { message := some "boom", error := none }) "T" =
      Except.error
        { status := 500, message := "boom", error := none,
          timestamp := "T" } :=
  (requestResult_error_spec "T").2.1 500 { message := some "boom", error := none }
    "boom" (by omega) rfl (by decide)

/-- C7 is refuted at falsy set fields: updateConfig with an apiKey field
set to the empty string removes the header instead of keeping it, and a
timeout field set to 0 makes the next request use the 10000 default
instead of the set value. -/
theorem updateConfig_truthiness_counterexample :
    ApiService.headerLookup
      (ApiService.create { baseUrl := "http://a:1", apiKey := some "K" }).defaults.headers
      "x-api-key" = some "K" ∧
    (ApiService.updateConfig
      (ApiService.create { baseUrl := "http://a:1", apiKey := some "K" })
      { baseUrl := "http://b:2", apiKey := some "", timeout := some 0 }).config.apiKey
      = some "" ∧
    ApiService.headerLookup
      (ApiService.updateConfig
        (ApiService.create { baseUrl := "http://a:1", apiKey := some "K" })
        { baseUrl := "http://b:2", apiKey := some "", timeout := some 0 }).defaults.headers
      "x-api-key" = none ∧
    (ApiService.nextRequest
      (ApiService.updateConfig
        (ApiService.create { baseUrl := "http://a:1", apiKey := some "K" })
        { baseUrl := "http://b:2", apiKey := some "", timeout := some 0 })
      "/x").timeout = 10000 := by
  refine ⟨?_, rfl, ?_, rfl⟩ <;> decide

/-- C7 (amended): after updateConfig the very next request targets the
new base URL (not the prior one), uses the new timeout when that field
is set non-zero and the 10000 default otherwise, and carries the api key
and bearer headers exactly when the corresponding fields are set to
non-empty strings, removed otherwise. -/
theorem updateConfig_next_request (s : ApiService.ApiServiceState)
    (c : ApiConfig) (path : String) :
    (ApiService.nextRequest (ApiService.updateConfig s c) path).url =
      c.baseUrl ++ path ∧
    (ApiService.nextRequest (ApiService.updateConfig s c) path).timeout =
      jsOrNat c.timeout 10000 ∧
    ApiService.headerLookup
      (ApiService.nextRequest (ApiService.updateConfig s c) path).headers
      "x-api-key" =
      (match c.apiKey with
       | some k => if k == "" then none else some k
       | none => none) ∧
    ApiService.headerLookup
      (ApiService.nextRequest (ApiService.updateConfig s c) path).headers
      "Authorization" =
      (match c.authToken with
       | some t => if t == "" then none else some ("Bearer " ++ t)
       | none => none) := by
  refine ⟨rfl, rfl, ?_, ?_⟩
  · cases hauth : c.authToken with
    | none =>
      cases hkey : c.apiKey with
      | none =>
        simp [ApiService.updateConfig, ApiService.nextRequest, hauth, hkey,
          headerLookup_removeHeader_other _ "Authorization" "x-api-key" (by decide),
          headerLookup_removeHeader_self]
      | some k =>
        by_cases hk : k = ""
        · simp [ApiService.updateConfig, ApiService.nextRequest, hauth, hkey, hk,
            headerLookup_removeHeader_other _ "Authorization" "x-api-key" (by decide),
            headerLookup_removeHeader_self]
        · have hb : (k == "") = false := beq_eq_false_iff_ne.mpr hk
          simp [ApiService.updateConfig, ApiService.nextRequest, hauth, hkey, hb,
            headerLookup_removeHeader_other _ "Authorization" "x-api-key" (by decide),
            headerLookup_setHeader_self]
    | some t =>
      by_cases ht : t = ""
      · cases hkey : c.apiKey with
        | none =>
          simp [ApiService.updateConfig, ApiService.nextRequest, hauth, hkey, ht,
            headerLookup_removeHeader_other _ "Authorization" "x-api-key" (by decide),
            headerLookup_removeHeader_self]
        | some k =>
          by_cases hk : k = ""
          · simp [ApiService.updateConfig, ApiService.nextRequest, hauth, hkey,
              ht, hk, headerLookup_removeHeader_other _ "Authorization" "x-api-key" (by decide),
              headerLookup_removeHeader_self]
          · have hb : (k == "") = false := beq_eq_false_iff_ne.mpr hk
            simp [ApiService.updateConfig, ApiService.nextRequest, hauth, hkey,
              ht, hb, headerLookup_removeHeader_other _ "Authorization" "x-api-key" (by decide),
              headerLookup_setHeader_self]
      · have hbt : (t == "") = false := beq_eq_false_iff_ne.mpr ht
        cases hkey : c.apiKey with
        | none =>
          simp [ApiService.updateConfig, ApiService.nextRequest, hauth, hkey, hbt,
            headerLookup_setHeader_other _ "Authorization" "x-api-key" _ (by decide),
            headerLookup_removeHeader_self]
        | some k =>
          by_cases hk : k = ""
          · simp [ApiService.updateConfig, ApiService.nextRequest, hauth, hkey,
              hbt, hk, headerLookup_setHeader_other _ "Authorization" "x-api-key" _ (by decide),
              headerLookup_removeHeader_self]
          · have hb : (k == "") = false := beq_eq_false_iff_ne.mpr hk
            simp [ApiService.updateConfig, ApiService.nextRequest, hauth, hkey,
              hbt, hb, headerLookup_setHeader_other _ "Authorization" "x-api-key" _ (by decide),
              headerLookup_setHeader_self]
  · cases hauth : c.authToken with
    | none =>
      simp [ApiService.updateConfig, ApiService.nextRequest, hauth,
        headerLookup_removeHeader_self]
    | some t =>
      by_cases ht : t = ""
      · simp [ApiService.updateConfig, ApiService.nextRequest, hauth, ht,
          headerLookup_removeHeader_self]
      · have hbt : (t == "") = false := beq_eq_false_iff_ne.mpr ht
        simp [ApiService.updateConfig, ApiService.nextRequest, hauth, hbt,
          headerLookup_setHeader_self]

/-- C1 is refuted on the disable path: with an empty environment, a
custom override URL set before simulation mode is enabled is not
restored when it is disabled; the service falls back to the hardcoded
environment default instead. -/
theorem toggleSimulationMode_restore_counterexample :
    ((SettingsService.setCustomBackendUrl (SettingsService.initial {})
        "10.0.0.5" 3000 false).1.settings.api.baseUrl = "http://10.0.0.5:3000") ∧
    ((SettingsService.toggleSimulationMode {}
        (SettingsService.setCustomBackendUrl (SettingsService.initial {})
          "10.0.0.5" 3000 false).1 false).1.settings.api.baseUrl =
      "http://localhost:3000") ∧
    ((SettingsService.toggleSimulationMode {}
        (SettingsService.toggleSimulationMode {}
          (SettingsService.setCustomBackendUrl (SettingsService.initial {})
            "10.0.0.5" 3000 false).1 false).1 false).1.settings.api.baseUrl =
      "http://192.168.0.108:3000") ∧
    ("http://192.168.0.108:3000" : String) ≠ "http://10.0.0.5:3000" := by
  refine ⟨?_, ?_, ?_, by decide⟩ <;> decide

/-- C1 (amended): toggleSimulationMode flips the simulation flag in the
settings and the api config; when enabling it forces the loopback base
URL; when disabling it sets the build-time environment default URL
(API_BASE_URL or-else the hardcoded fallback), regardless of any
override that was in effect before simulation mode was enabled. -/
theorem toggleSimulationMode_spec (env : Env) (st : SettingsState) :
    (SettingsService.toggleSimulationMode env st false).2 =
      some ((SettingsService.toggleSimulationMode env st false).1.settings.api) ∧
    (SettingsService.toggleSimulationMode env st false).1.settings.simulationMode
      = !st.settings.simulationMode ∧
    (SettingsService.toggleSimulationMode env st false).1.settings.api.simulationMode
      = !st.settings.simulationMode ∧
    (SettingsService.toggleSimulationMode env st false).1.settings.api.baseUrl =
      (if !st.settings.simulationMode then "http://localhost:3000"
       else jsOrStr env.API_BASE_URL "http://192.168.0.108:3000") :=
  ⟨rfl, rfl, rfl, rfl⟩

theorem renderNatChars_all_hostChar (n : Nat) :
    (renderNatChars n).all isHostChar = true := by
  rw [List.all_eq_true]
  intro x hx
  have hall2 := renderNatChars_all_digit n
  rw [List.all_eq_true] at hall2
  exact isHostChar_of_isDigit x (hall2 x hx)

theorem renderNatChars_isEmpty_false (n : Nat) :
    (renderNatChars n).isEmpty = false := by
  rcases List.exists_cons_of_ne_nil (renderNatChars_ne_nil n) with ⟨x, xs, hx⟩
  rw [hx]; rfl

theorem renderNatChars_mem_digit (n : Nat) (x : Char)
    (hx : x ∈ renderNatChars n) : x.isDigit = true := by
  have hall2 := renderNatChars_all_digit n
  rw [List.all_eq_true] at hall2
  exact hall2 x hx

theorem partNumVal_renderNatChars (n : Nat) :
    partNumVal (renderNatChars n) = some n := by
  by_cases h : n < 10
  · rw [renderNatChars_lt_ten n h]
    rw [partNumVal, if_neg (by simp)]
    simp [parseDigitsVal, (digitChar_lt_ten n h).2.1]
  · have hhead : (renderNatChars n).head? ≠ some '0' :=
      renderNatChars_head_ne_zero (n + 1) n (by omega) (by omega)
    rw [partNumVal, if_neg (fun hc => hhead hc.2), parseDigitsVal_renderNatChars]

theorem splitOnChar_quadChars (a b c d : Nat) :
    splitOnChar '.' (quadChars a b c d) =
      [renderNatChars a, renderNatChars b, renderNatChars c, renderNatChars d] := by
  have hnd : ∀ (n : Nat), ∀ x ∈ renderNatChars n, x ≠ '.' := fun n x hx =>
    isDigit_ne_dot x (renderNatChars_mem_digit n x hx)
  unfold quadChars
  rw [splitOnChar_append '.' _ _ (hnd a),
    splitOnChar_append '.' _ _ (hnd b),
    splitOnChar_append '.' _ _ (hnd c),
    splitOnChar_no_sep '.' _ (hnd d)]

theorem octetOkChars_renderNatChars (v : Nat) (hv : v ≤ 255) :
    SettingsService.octetOkChars (renderNatChars v) = true := by
  by_cases h1 : v < 10
  · rw [renderNatChars_lt_ten v h1]
    simp [SettingsService.octetOkChars, (digitChar_lt_ten v h1).1]
  · by_cases h2 : v < 100
    · have hq : v / 10 < 10 := by omega
      rw [renderNatChars_ge_ten v (by omega), renderNatChars_lt_ten _ hq]
      simp [SettingsService.octetOkChars, (digitChar_lt_ten _ hq).1,
        (digitChar_lt_ten (v % 10) (by omega)).1]
    · have hv10 : 10 ≤ v / 10 := by omega
      have hv100 : v / 10 / 10 < 10 := by omega
      rw [renderNatChars_ge_ten v (by omega), renderNatChars_ge_ten (v / 10) hv10,
        renderNatChars_lt_ten (v / 10 / 10) hv100]
      simp only [List.cons_append, List.nil_append]
      have hd2 := digitChar_lt_ten (v / 10 % 10) (by omega)
      have hd3 := digitChar_lt_ten (v % 10) (by omega)
      simp only [SettingsService.octetOkChars, Bool.or_eq_true, Bool.and_eq_true,
        beq_iff_eq, decide_eq_true_eq]
      rcases (by omega : v ≤ 199 ∨ (200 ≤ v ∧ v ≤ 249) ∨ 250 ≤ v) with hc | hc | hc
      · have h100 : v / 10 / 10 = 1 := by omega
        rw [h100]
        exact Or.inr ⟨⟨Or.inr rfl, hd2.1⟩, hd3.1⟩
      · have h100 : v / 10 / 10 = 2 := by omega
        rw [h100]
        refine Or.inl (Or.inr ⟨⟨rfl, hd2.1, ?_⟩, hd3.1⟩)
        rw [hd2.2.2]; omega
      · have h100 : v / 10 / 10 = 2 := by omega
        have h10 : v / 10 % 10 = 5 := by omega
        rw [h100, h10]
        refine Or.inl (Or.inl ⟨⟨rfl, rfl⟩, hd3.1, ?_⟩)
        rw [hd3.2.2]; omega

theorem isValidIpAddress_quadString (a b c d : Nat)
    (ha : a ≤ 255) (hb : b ≤ 255) (hc : c ≤ 255) (hd : d ≤ 255) :
    SettingsService.isValidIpAddress (quadString a b c d) = true := by
  rw [SettingsService.isValidIpAddress]
  rw [show (quadString a b c d).data = quadChars a b c d from rfl]
  rw [splitOnChar_quadChars]
  simp [octetOkChars_renderNatChars a ha, octetOkChars_renderNatChars b hb,
    octetOkChars_renderNatChars c hc, octetOkChars_renderNatChars d hd]

theorem quadChars_ne_nil (a b c d : Nat) : quadChars a b c d ≠ [] := by
  unfold quadChars
  intro h
  exact renderNatChars_ne_nil a (List.append_eq_nil.mp h).1

theorem quadChars_isEmpty_false (a b c d : Nat) :
    (quadChars a b c d).isEmpty = false := by
  rcases List.exists_cons_of_ne_nil (quadChars_ne_nil a b c d) with ⟨x, xs, hx⟩
  rw [hx]; rfl

theorem quadChars_all_hostChar (a b c d : Nat) :
    (quadChars a b c d).all isHostChar = true := by
  unfold quadChars
  simp [List.all_append, List.all_cons, renderNatChars_all_hostChar,
    (by decide : isHostChar '.' = true)]

theorem canonHost_quadChars (a b c d : Nat)
    (ha : a ≤ 255) (hb : b ≤ 255) (hc : c ≤ 255) (hd : d ≤ 255) :
    canonHost (quadChars a b c d) = some (quadChars a b c d) := by
  rw [canonHost]
  simp only [quadChars_isEmpty_false, Bool.false_eq_true, if_false,
    quadChars_all_hostChar, Bool.not_true, splitOnChar_quadChars]
  simp only [allDigitParts, List.all_cons, List.all_nil,
    renderNatChars_isEmpty_false, renderNatChars_all_digit, Bool.not_false,
    Bool.and_true, Bool.true_and, if_true]
  simp only [partNumVal_renderNatChars, ha, hb, hc, hd, decide_True,
    Bool.and_self, if_true]

theorem header_colon_data : (":" : String).data = [':'] := rfl

theorem composeUrl_data_http (host : List Char) (port : Nat) :
    (SettingsService.composeUrl false ⟨host⟩ port).data =
      'h' :: 't' :: 't' :: 'p' :: ':' :: '/' :: '/' ::
        (host ++ ':' :: renderNatChars port) := by
  show ((("http" : String) ++ "://" ++ ⟨host⟩ ++ ":" ++ ⟨renderNatChars port⟩)).data = _
  simp only [String.data_append]
  simp [List.append_assoc, List.cons_append, List.nil_append]

theorem composeUrl_data_https (host : List Char) (port : Nat) :
    (SettingsService.composeUrl true ⟨host⟩ port).data =
      'h' :: 't' :: 't' :: 'p' :: 's' :: ':' :: '/' :: '/' ::
        (host ++ ':' :: renderNatChars port) := by
  show ((("https" : String) ++ "://" ++ ⟨host⟩ ++ ":" ++ ⟨renderNatChars port⟩)).data = _
  simp only [String.data_append]
  simp [List.append_assoc, List.cons_append, List.nil_append]

theorem authority_facts (host : List Char) (port : Nat)
    (hchars : host.all isHostChar = true) :
    ((host ++ ':' :: renderNatChars port).takeWhile notUrlDelim =
      host ++ ':' :: renderNatChars port) ∧
    ((host ++ ':' :: renderNatChars port).any (fun c => c == '@') = false) ∧
    splitAtChar ':' (host ++ ':' :: renderNatChars port) =
      (host, some (renderNatChars port)) := by
  have hhost : ∀ x ∈ host, isHostChar x = true := by
    rw [List.all_eq_true] at hchars; exact hchars
  refine ⟨takeWhile_all _ _ ?_, list_any_eq_false _ _ ?_,
    splitAtChar_append _ _ _ ?_⟩
  · intro x hx
    rcases List.mem_append.mp hx with hx | hx
    · exact (isHostChar_good x (hhost x hx)).1
    · rcases List.mem_cons.mp hx with rfl | hx
      · decide
      · exact (isHostChar_good x (isHostChar_of_isDigit x
          (renderNatChars_mem_digit port x hx))).1
  · intro x hx
    rcases List.mem_append.mp hx with hx | hx
    · exact (isHostChar_good x (hhost x hx)).2.1
    · rcases List.mem_cons.mp hx with rfl | hx
      · decide
      · exact (isHostChar_good x (isHostChar_of_isDigit x
          (renderNatChars_mem_digit port x hx))).2.1
  · intro x hx
    exact (isHostChar_good x (hhost x hx)).2.2

theorem urlParse_compose (https : Bool) (host : List Char) (port : Nat)
    (hchars : host.all isHostChar = true)
    (hcanon : canonHost host = some host)
    (hpos : 0 < port) (hle : port ≤ 65535)
    (hdef : port ≠ defaultPortFor https) :
    urlParse (SettingsService.composeUrl https ⟨host⟩ port) =
      some ⟨⟨host⟩, ⟨renderNatChars port⟩⟩ := by
  obtain ⟨ht, ha, hs⟩ := authority_facts host port hchars
  have hstrip : stripHttpScheme
      (SettingsService.composeUrl https ⟨host⟩ port).data =
      some (https, host ++ ':' :: renderNatChars port) := by
    cases https
    · rw [composeUrl_data_http]; rfl
    · rw [composeUrl_data_https]; rfl
  rw [urlParse]
  unfold urlParseCore
  rw [hstrip]
  simp only [ht, ha, Bool.false_eq_true, if_false, hs, hcanon,
    renderNatChars_all_digit, renderNatChars_isEmpty_false, if_true,
    parseDigitsVal_renderNatChars]
  rw [if_neg (by omega : ¬ 65535 < port), if_neg hdef]

theorem jsPortOr3000_renderNatChars (port : Nat) (hpos : 0 < port) :
    jsPortOr3000 ⟨renderNatChars port⟩ = port := by
  rw [jsPortOr3000, jsParseInt]
  rw [show (String.mk (renderNatChars port)).data = renderNatChars port from rfl]
  rw [takeWhile_all Char.isDigit _ (fun c hc => renderNatChars_mem_digit port c hc)]
  simp only [renderNatChars_isEmpty_false, Bool.false_eq_true, if_false,
    parseDigitsVal_renderNatChars]
  rw [if_neg (by omega : ¬ port = 0)]

/-- C5 is refuted at ports the URL serializer or parseInt collapses, and
at leading-zero octets the validation regular expression accepts but the
URL parser reads as octal: composing localhost with port 80 under http
parses back with the 3000 fallback because the default port is elided
from the port property, and the accepted ip 010.0.0.1 parses back as
8.0.0.1. -/
theorem parseBackendUrl_roundtrip_counterexample :
    ((SettingsService.setCustomBackendUrl (SettingsService.initial {})
        "localhost" 80 false).2.map (fun cfg => cfg.baseUrl) =
      some "http://localhost:80") ∧
    SettingsService.parseBackendUrl "http://localhost:80" =
      ⟨"localhost", 3000⟩ ∧
    ((⟨"localhost", 3000⟩ : IpPort) ≠ ⟨"localhost", 80⟩) ∧
    SettingsService.isValidIpAddress "010.0.0.1" = true ∧
    SettingsService.parseBackendUrl "http://010.0.0.1:3000" =
      ⟨"8.0.0.1", 3000⟩ ∧
    (("8.0.0.1" : String) ≠ "010.0.0.1") := by
  refine ⟨?_, ?_, by decide, by decide, ?_, by decide⟩ <;> decide

/-- C5 (amended): the round trip holds for every accepted pair in which
the ip is localhost or a canonical dotted quad (each octet in plain
decimal, no leading zeros) and the port is between 1 and 65535 and
differs from the default port of the chosen scheme (80 for http, 443
for https): such an ip passes validation and parsing the composed URL
returns exactly the pair. -/
theorem parseBackendUrl_roundtrip (st : SettingsState) (ip : String) (port : Nat)
    (hip : ip = "localhost" ∨ ∃ a b c d : Nat,
      a ≤ 255 ∧ b ≤ 255 ∧ c ≤ 255 ∧ d ≤ 255 ∧ ip = quadString a b c d)
    (hpos : 0 < port) (hle : port ≤ 65535)
    (hdef : port ≠ defaultPortFor st.settings.api.useHttps) :
    SettingsService.isValidIpAddress ip = true ∧
    SettingsService.parseBackendUrl
      (SettingsService.composeUrl st.settings.api.useHttps ip port) =
      ⟨ip, port⟩ := by
  rcases hip with rfl | ⟨a, b, c, d, ha, hb, hc, hd, rfl⟩
  · refine ⟨by decide, ?_⟩
    have h : urlParse (SettingsService.composeUrl st.settings.api.useHttps
        "localhost" port) = some ⟨"localhost", ⟨renderNatChars port⟩⟩ :=
      urlParse_compose st.settings.api.useHttps ("localhost".data) port
        (by decide) (by decide) hpos hle hdef
    rw [SettingsService.parseBackendUrl, h]
    simp [jsPortOr3000_renderNatChars port hpos]
  · refine ⟨isValidIpAddress_quadString a b c d ha hb hc hd, ?_⟩
    have h : urlParse (SettingsService.composeUrl st.settings.api.useHttps
        (quadString a b c d) port) =
        some ⟨quadString a b c d, ⟨renderNatChars port⟩⟩ :=
      urlParse_compose st.settings.api.useHttps (quadChars a b c d) port
        (quadChars_all_hostChar a b c d)
        (canonHost_quadChars a b c d ha hb hc hd) hpos hle hdef
    rw [SettingsService.parseBackendUrl, h]
    simp [jsPortOr3000_renderNatChars port hpos]

/-- C5 witness: the round trip at localhost port 3000 and at the
canonical quad 192.168.0.20 port 8080, from the default state. -/
theorem parseBackendUrl_roundtrip_witness :
    SettingsService.parseBackendUrl "http://localhost:3000" =
      ⟨"localhost", 3000⟩ ∧
    SettingsService.parseBackendUrl "http://192.168.0.20:8080" =
      ⟨"192.168.0.20", 8080⟩ := by
  constructor
  · have h := (parseBackendUrl_roundtrip (SettingsService.initial {})
      "localhost" 3000 (Or.inl rfl) (by omega) (by omega) (by decide)).2
    rw [show SettingsService.composeUrl
        (SettingsService.initial {}).settings.api.useHttps "localhost" 3000 =
        "http://localhost:3000" from by decide] at h
    exact h
  · have h := (parseBackendUrl_roundtrip (SettingsService.initial {})
      "192.168.0.20" 8080
      (Or.inr ⟨192, 168, 0, 20, by omega, by omega, by omega, by omega,
        by decide⟩)
      (by omega) (by omega) (by decide)).2
    rw [show SettingsService.composeUrl
        (SettingsService.initial {}).settings.api.useHttps "192.168.0.20" 8080 =
        "http://192.168.0.20:8080" from by decide] at h
    exact h
